import Mathlib

/-!
Verification of the rust-repos crawler.

Shallow embeddings of the per-page scraper loop and the worker threads
(src/github/mod.rs), the HTTP client's retry loop, error classification
and GraphQL response handling (src/github/api.rs), and the persistence
layer (src/data.rs), with theorems settling the behavioural properties of
each part.
-/

namespace RustRepos

/-- A repository as returned by the REST listing endpoint
(struct RestRepository, src/github/api.rs). -/
structure RestRepository where
  id : Nat
  full_name : String
  node_id : String
  fork : Bool
  deriving DecidableEq

/-- One step of the per-page loop in scrape (src/github/mod.rs, lines
160-167).  A fork is skipped by the early continue, so neither the send of
its node_id nor the assignment to last_id runs for it; for a non-fork the
node_id is queued for loading and last_id is set to its id. -/
def scrapeStep (acc : Nat × List String) (repo : RestRepository) : Nat × List String :=
  if repo.fork then acc
  else (repo.id, acc.2 ++ [repo.node_id])

/-- The body of one iteration of the outer loop of scrape
(src/github/mod.rs, lines 158-169): fold the page's repositories over
scrapeStep, returning the in-memory cursor after the page together with the
node ids sent to the load threads.  scrape then calls set_last_id with the
first component, persisting it. -/
def scrapePage (repos : List RestRepository) (lastId : Nat) : Nat × List String :=
  repos.foldl scrapeStep (lastId, [])

/-- Claim C1: the spec says the in-memory cursor is advanced to the id of
every returned repository, fork or not, so that on a page returning ids 5
and 9 (the latter a fork) the persisted cursor is 9.  The code however
executes continue before the assignment to last_id, so the cursor is only
advanced for non-forks: starting from cursor 0 the value handed to
set_last_id is 5, not 9, while only id 5 is queued for enrichment.  This
theorem evaluates the embedded loop at that failing input. -/
theorem c1_cursor_skips_forks :
    scrapePage [⟨5, "octocat/a", "n5", false⟩, ⟨9, "octocat/b", "n9", true⟩] 0
      = (5, ["n5"])
    ∧ (scrapePage [⟨5, "octocat/a", "n5", false⟩, ⟨9, "octocat/b", "n9", true⟩] 0).1 ≠ 9 := by
  constructor
  · rfl
  · decide

/-- A language node of the GraphQL response (struct GraphLanguage,
src/github/api.rs). -/
structure GraphLanguage where
  name : String
  deriving DecidableEq

/-- The languages field of a repository in the GraphQL response
(struct GraphLanguages, src/github/api.rs). -/
structure GraphLanguages where
  nodes : List (Option GraphLanguage)
  deriving DecidableEq

/-- The default branch reference (struct GraphRef, src/github/api.rs). -/
structure GraphRef where
  name : String
  deriving DecidableEq

/-- A repository summary from the GraphQL batch endpoint
(struct GraphRepository, src/github/api.rs). -/
structure GraphRepository where
  id : String
  name_with_owner : String
  default_branch_ref : Option GraphRef
  languages : GraphLanguages
  deriving DecidableEq

/-- The rateLimit part of the GraphQL response (struct GraphRateLimit,
src/github/api.rs). -/
structure GraphRateLimit where
  cost : Nat
  deriving DecidableEq

/-- The data of the GraphQL batch response (struct GraphRepositories,
src/github/api.rs): one optional repository per requested id, plus the
query's rate-limit cost. -/
structure GraphRepositories where
  nodes : List (Option GraphRepository)
  rate_limit : GraphRateLimit
  deriving DecidableEq

/-- load_repositories (src/github/api.rs, lines 212-225) after the retried
graphql call has produced a response: the assert on the rate-limit cost is
a hard stop (a panic, modelled as an error) applied to the already-returned
response, so it is never retried; below the threshold the nodes are
returned unchanged. -/
def load_repositories (resp : GraphRepositories) : Except String (List (Option GraphRepository)) :=
  if resp.rate_limit.cost ≤ 1 then Except.ok resp.nodes
  else Except.error "load repositories query too costly"

/-- The target language constant WANTED_LANG (src/github/mod.rs). -/
def WANTED_LANG : String := "Rust"

/-- The language test of load_thread (src/github/mod.rs, lines 68-74):
iterate the language nodes, ignoring null entries, looking for
WANTED_LANG. -/
def hasWantedLang (r : GraphRepository) : Bool :=
  r.languages.nodes.any fun l =>
    match l with
    | some lang => lang.name == WANTED_LANG
    | none => false

/-- The per-batch result loop of load_thread (src/github/mod.rs, lines
66-80): each returned entry that is present and whose languages include
WANTED_LANG is forwarded to the add_repo channel; a null entry (if let
Some fails) is skipped without producing anything and without an error,
and the loop continues with the remaining entries.  The function is total:
no error path exists in this loop. -/
def processBatch : List (Option GraphRepository) → List GraphRepository
  | [] => []
  | none :: rest => processBatch rest
  | some r :: rest =>
      if hasWantedLang r then r :: processBatch rest else processBatch rest

/-- Claim C10: an identifier for which the batch endpoint returns a null
entry is silently skipped: removing a null entry from anywhere in the
response leaves the forwarded repositories unchanged, so the null produces
no record, raises no error (processBatch is total) and does not disturb
the processing of the surrounding entries. -/
theorem c10_null_entries_skipped :
    ∀ (xs ys : List (Option GraphRepository)),
      processBatch (xs ++ none :: ys) = processBatch (xs ++ ys) := by
  intro xs ys
  induction xs with
  | nil => simp [processBatch]
  | cons x rest ih =>
      cases x with
      | none => simpa [processBatch] using ih
      | some r => simp [processBatch, ih]

/-- Inputs received by the worker threads over their channel
(enum ThreadInput, src/github/mod.rs). -/
inductive ThreadInput (α : Type) where
  | data (a : α)
  | finished
  deriving DecidableEq

/-- The inner while loop of load_thread (src/github/mod.rs, lines 53-83),
written with fuel (each pass removes at least one element, so
toLoad.length + 1 passes always suffice and the fuel pattern is only a
bookkeeping device): while the pending vector holds at least 100 ids, the
last 100 are dispatched as one batch and the vector truncated; once the
finished flag is set a final short batch with whatever remains is
dispatched.  Returns the dispatched batches and the remaining vector. -/
def drainGo : Nat → Bool → List String → List (List String) × List String
  | 0, _, toLoad => ([], toLoad)
  | fuel + 1, finished, toLoad =>
      if 100 ≤ toLoad.length then
        let cutoff := toLoad.length - 100
        let r := drainGo fuel finished (toLoad.take cutoff)
        (toLoad.drop cutoff :: r.1, r.2)
      else if finished && !toLoad.isEmpty then
        ([toLoad], [])
      else
        ([], toLoad)

/-- The drain loop of load_thread with enough fuel for its input. -/
def drainBatches (finished : Bool) (toLoad : List String) : List (List String) × List String :=
  drainGo (toLoad.length + 1) finished toLoad

/-- The outer receive loop of load_thread (src/github/mod.rs, lines 44-89)
restricted to its batching behaviour: push each received id, set the
finished flag on the Finished input, drain full (and, at the end, partial)
batches, and stop after draining once finished.  Returns every batch of
node ids passed to load_repositories. -/
def loadThreadBatches : List (ThreadInput String) → List String → Bool → List (List String)
  | [], _, _ => []
  | i :: rest, toLoad, finished =>
      let toLoad2 := match i with
        | ThreadInput.data s => toLoad ++ [s]
        | ThreadInput.finished => toLoad
      let finished2 := match i with
        | ThreadInput.data _ => finished
        | ThreadInput.finished => true
      let d := drainBatches finished2 toLoad2
      d.1 ++ (if finished2 then [] else loadThreadBatches rest d.2 finished2)

theorem drainGo_batch_le :
    ∀ (fuel : Nat) (finished : Bool) (toLoad : List String) (b : List String),
      b ∈ (drainGo fuel finished toLoad).1 → b.length ≤ 100 := by
  intro fuel
  induction fuel with
  | zero => intro finished toLoad b hb; simp [drainGo] at hb
  | succ n ih =>
      intro finished toLoad b hb
      by_cases h : 100 ≤ toLoad.length
      · rw [drainGo, if_pos h] at hb
        rcases List.mem_cons.mp hb with hb | hb
        · subst hb
          simp [List.length_drop]
          omega
        · exact ih finished _ b hb
      · rw [drainGo, if_neg h] at hb
        by_cases h2 : finished && !toLoad.isEmpty
        · rw [if_pos h2] at hb
          rcases List.mem_singleton.mp hb with rfl
          omega
        · rw [if_neg h2] at hb
          simp at hb

theorem loadThreadBatches_le :
    ∀ (inputs : List (ThreadInput String)) (toLoad : List String) (finished : Bool)
      (b : List String), b ∈ loadThreadBatches inputs toLoad finished → b.length ≤ 100 := by
  intro inputs
  induction inputs with
  | nil => intro toLoad finished b hb; simp [loadThreadBatches] at hb
  | cons i rest ih =>
      intro toLoad finished b hb
      cases i with
      | data s =>
          simp only [loadThreadBatches] at hb
          rcases List.mem_append.mp hb with hb | hb
          · exact drainGo_batch_le _ _ _ b hb
          · cases finished with
            | true => simp at hb
            | false => exact ih _ _ b (by simpa using hb)
      | finished =>
          simp only [loadThreadBatches] at hb
          rcases List.mem_append.mp hb with hb | hb
          · exact drainGo_batch_le _ _ _ b hb
          · simp at hb

/-- Claim C9: load_repositories is only ever invoked on batches assembled
by load_thread, all of which hold at most 100 identifiers (a full batch is
exactly the last 100 pending ids, the final short batch fewer), and a
response whose rate-limit cost exceeds 1 makes load_repositories stop with
the assertion message instead of returning nodes — the check sits after
the retried call, so it is never retried or tolerated. -/
theorem c9_batch_bound_and_cost_stop :
    (∀ (inputs : List (ThreadInput String)) (b : List String),
        b ∈ loadThreadBatches inputs [] false → b.length ≤ 100)
    ∧ (∀ resp : GraphRepositories, 1 < resp.rate_limit.cost →
        load_repositories resp = Except.error "load repositories query too costly") := by
  constructor
  · intro inputs b hb
    exact loadThreadBatches_le inputs [] false b hb
  · intro resp h
    rw [load_repositories, if_neg]
    omega

/-- Concrete witness for C9: a run that receives one id and then the
finished signal dispatches the singleton batch, which is within the bound,
and a response of cost 2 with no nodes stops with the assertion error. -/
theorem c9_batch_bound_and_cost_stop_witness :
    (["MDEwOlJlcG9zaXRvcnkx"] : List String).length ≤ 100
    ∧ load_repositories ⟨[], ⟨2⟩⟩ = Except.error "load repositories query too costly" := by
  refine ⟨?_, ?_⟩
  · exact c9_batch_bound_and_cost_stop.1
      [ThreadInput.data "MDEwOlJlcG9zaXRvcnkx", ThreadInput.finished]
      ["MDEwOlJlcG9zaXRvcnkx"] (by decide)
  · exact c9_batch_bound_and_cost_stop.2 ⟨[], ⟨2⟩⟩ (by decide)

/-- A discovered repository record (struct Repo, src/data.rs): forge id,
full name and the two marker-file flags, identity being the name. -/
structure Repo where
  id : String
  name : String
  has_cargo_toml : Bool
  has_cargo_lock : Bool
  deriving DecidableEq

theorem scrapePage_foldl_snd :
    ∀ (repos : List RestRepository) (p : Nat × List String),
      (repos.foldl scrapeStep p).2
        = p.2 ++ (repos.filter fun r => !r.fork).map (·.node_id) := by
  intro repos
  induction repos with
  | nil => intro p; simp
  | cons r rest ih =>
      intro p
      rw [List.foldl_cons]
      cases hf : r.fork with
      | true => simp [scrapeStep, hf, ih]
      | false =>
          rw [ih]
          simp [scrapeStep, hf, List.append_assoc]

/-- The node ids a page sends to the load threads (second component of
scrapePage). -/
def pageNodeIds (repos : List RestRepository) (lastId : Nat) : List String :=
  (scrapePage repos lastId).2

/-- The GraphQL batch lookup abstracted as a map from node id to the
optional repository summary the endpoint returns for it; applying it to a
list of ids yields the nodes list of load_repositories. -/
def lookupNodes (lookup : String → Option GraphRepository) (ids : List String) :
    List (Option GraphRepository) :=
  ids.map lookup

/-- One insertion into the pending-write buffer (store_repo, src/data.rs,
lines 153-156): the buffer is a map keyed by repository name, so an
existing entry with the same name is overwritten and a new name is
appended. -/
def insertNamed (b : List (String × Repo)) (r : Repo) : List (String × Repo) :=
  if b.any fun p => p.1 == r.name then
    b.map fun p => if p.1 == r.name then (p.1, r) else p
  else
    b ++ [(r.name, r)]

/-- Submitting a list of records to the buffer in order. -/
def storeRecords (b : List (String × Repo)) (records : List Repo) : List (String × Repo) :=
  records.foldl insertNamed b

/-- The buffer contents produced by one listing page: the page's non-fork
node ids are looked up in a batch, filtered by language (load_thread), the
surviving summaries turned into records by the enrichment step (abstracted
as recordOf) and stored into an empty buffer. -/
def pageBuffer (lookup : String → Option GraphRepository) (recordOf : GraphRepository → Repo)
    (repos : List RestRepository) (lastId : Nat) : List (String × Repo) :=
  storeRecords [] ((processBatch (lookupNodes lookup (pageNodeIds repos lastId))).map recordOf)

/-- The CSV data rows that a flush of that buffer appends (store_csv writes
one row per buffered record). -/
def pageRows (lookup : String → Option GraphRepository) (recordOf : GraphRepository → Repo)
    (repos : List RestRepository) (lastId : Nat) : List Repo :=
  (pageBuffer lookup recordOf repos lastId).map (·.2)

/-- Claim C7: a repository flagged as a fork never reaches enrichment, the
buffer or the output file.  The ids sent to the load threads are exactly
the node ids of the page's non-forks, and the whole per-page pipeline —
sent ids, buffer contents and appended output rows — is unchanged when the
forks are deleted from the listing page, whatever the batch endpoint would
have answered for them and whatever their language: forks contribute
nothing anywhere downstream. -/
theorem c7_forks_never_stored :
    ∀ (lastId : Nat) (lookup : String → Option GraphRepository)
      (recordOf : GraphRepository → Repo) (repos : List RestRepository),
      pageNodeIds repos lastId = ((repos.filter fun r => !r.fork).map (·.node_id))
      ∧ pageBuffer lookup recordOf repos lastId
          = pageBuffer lookup recordOf (repos.filter fun r => !r.fork) lastId
      ∧ pageRows lookup recordOf repos lastId
          = pageRows lookup recordOf (repos.filter fun r => !r.fork) lastId := by
  intro lastId lookup recordOf repos
  have hids : ∀ rs : List RestRepository,
      pageNodeIds rs lastId = ((rs.filter fun r => !r.fork).map (·.node_id)) := by
    intro rs
    have h := scrapePage_foldl_snd rs (lastId, [])
    simpa [pageNodeIds, scrapePage] using h
  have hsame : pageNodeIds repos lastId
      = pageNodeIds (repos.filter fun r => !r.fork) lastId := by
    rw [hids, hids, List.filter_filter]
    simp
  refine ⟨hids repos, ?_, ?_⟩
  · rw [pageBuffer, pageBuffer, hsame]
  · rw [pageRows, pageRows, pageBuffer, pageBuffer, hsame]

/-- The forge enumeration (enum Forge, src/data.rs): a namespace key for
the per-forge checkpoint entry and output file; currently only GitHub. -/
inductive Forge where
  | github
  deriving DecidableEq

/-- One line of a forge's CSV output file: either the header row that the
csv writer derives from the record's field names, or a data row holding
one record. -/
inductive CsvRow where
  | header
  | data (r : Repo)
  deriving DecidableEq

/-- store_csv's per-forge file write (src/data.rs, lines 115-133) as a
function from the previous file contents (none when the file does not
exist) to the new contents.  When the file is missing it is first created
empty and write_headers set; the appending csv writer configured with
has_headers only emits the header row upon serializing the first record,
so a flush of an empty buffer on a missing file leaves the created file
empty with no header.  On an existing file the writer is configured
without headers and appends data rows only.  The file exists after the
call in every case. -/
def storeCsvFile (existing : Option (List CsvRow)) (repos : List Repo) : List CsvRow :=
  match existing with
  | none => if repos.isEmpty then [] else CsvRow.header :: repos.map CsvRow.data
  | some rows => rows ++ repos.map CsvRow.data

theorem count_header_map_data (repos : List Repo) :
    (repos.map CsvRow.data).count CsvRow.header = 0 := by
  induction repos with
  | nil => rfl
  | cons r t ih => simp [List.count_cons, ih]

/-- Claim C8, counterexample: flushing when the output file does not yet
exist is claimed to always write the header row, but a flush of an empty
buffer (which happens whenever set_last_id runs before any record has been
stored) creates the file empty: no header is written although the file did
not previously exist. -/
theorem c8_no_header_on_empty_first_flush :
    storeCsvFile none [] = [] ∧ CsvRow.header ∉ storeCsvFile none [] := by
  constructor
  · rfl
  · intro h
    simp [storeCsvFile] at h

/-- Claim C8 as amended: a flush writes the header row if and only if the
file did not previously exist and at least one record is being flushed
(the file's header count grows by one exactly in that case), and a flush
onto an existing file appends exactly the data rows and never a header. -/
theorem c8_header_iff_new_file_and_records :
    ∀ (existing : Option (List CsvRow)) (repos : List Repo),
      (storeCsvFile existing repos).count CsvRow.header
        = (existing.getD []).count CsvRow.header
          + (if existing = none ∧ repos ≠ [] then 1 else 0)
      ∧ ∀ rows : List CsvRow,
          storeCsvFile (some rows) repos = rows ++ repos.map CsvRow.data := by
  intro existing repos
  constructor
  · rcases existing with _ | rows
    · rcases repos with _ | ⟨a, t⟩
      · simp [storeCsvFile]
      · simp [storeCsvFile, List.count_cons, count_header_map_data]
    · simp [storeCsvFile, List.count_append, count_header_map_data]
  · intro rows
    rfl

/-- The in-memory half of Data (struct InnerData, src/data.rs): the cursor
cache (state_cache, one atomic counter per forge) and the pending-write
buffer (repos_state, one name-keyed record map per forge). -/
structure DataState where
  state_cache : Forge → Nat
  repos_state : Forge → List (String × Repo)

/-- The durable half: the per-forge CSV output files (none while a file
does not exist) and the contents of the state.json checkpoint (none before
the first write). -/
structure DiskState where
  csv : Forge → Option (List CsvRow)
  state_json : Option (Forge → Nat)

/-- The full state visible to Data: memory plus disk. -/
structure FullState where
  mem : DataState
  disk : DiskState

/-- Storing a cursor into the per-forge cursor cache. -/
def updateForge (m : Forge → Nat) (forge : Forge) (n : Nat) : Forge → Nat :=
  fun f => if f = forge then n else m f

/-- store_csv (src/data.rs, lines 106-142): under the buffer lock, append
every forge's buffered records to that forge's file (creating it first
when missing, see storeCsvFile), then clear the buffer. -/
def store_csv (s : FullState) : FullState :=
  { mem := { state_cache := s.mem.state_cache, repos_state := fun _ => [] }
    disk := { csv := fun f => some (storeCsvFile (s.disk.csv f) ((s.mem.repos_state f).map (·.2)))
              state_json := s.disk.state_json } }

/-- store_state_cache (src/data.rs, lines 86-103): serialize the whole
in-memory cursor cache to state.json under the exclusive state lock. -/
def store_state_cache (s : FullState) : FullState :=
  { mem := s.mem
    disk := { csv := s.disk.csv, state_json := some s.mem.state_cache } }

/-- set_last_id (src/data.rs, lines 144-151): store the new cursor into
the in-memory cache, then flush the buffer with store_csv, then persist
the cache with store_state_cache.  The three successive states are
returned so that the ordering, and every intermediate crash point, is
visible. -/
def set_last_id (s : FullState) (forge : Forge) (n : Nat) :
    FullState × FullState × FullState :=
  let s1 : FullState :=
    { mem := { state_cache := updateForge s.mem.state_cache forge n
               repos_state := s.mem.repos_state }
      disk := s.disk }
  let s2 := store_csv s1
  let s3 := store_state_cache s2
  (s1, s2, s3)

/-- Claim C6: set_last_id first updates only the in-memory cursor (the
first intermediate state has the new cursor and an untouched disk), then
flushes the pending buffer to the output file while the on-disk checkpoint
is still the old one (so a crash between the two writes leaves a
checkpoint that claims no progress beyond what the output file already
holds — the freshly flushed rows are all present in the file at that
point), and only then writes the checkpoint, without touching the CSV
again. -/
theorem c6_flush_before_checkpoint :
    ∀ (s : FullState) (forge : Forge) (n : Nat),
      (set_last_id s forge n).1.disk = s.disk
      ∧ (set_last_id s forge n).1.mem.state_cache forge = n
      ∧ (set_last_id s forge n).2.1.disk.state_json = s.disk.state_json
      ∧ (set_last_id s forge n).2.1.disk.csv forge
          = some (storeCsvFile (s.disk.csv forge) ((s.mem.repos_state forge).map (·.2)))
      ∧ (∃ pre, ((set_last_id s forge n).2.1.disk.csv forge).getD []
          = pre ++ (s.mem.repos_state forge).map fun p => CsvRow.data p.2)
      ∧ (set_last_id s forge n).2.2.disk.csv = (set_last_id s forge n).2.1.disk.csv
      ∧ (set_last_id s forge n).2.2.disk.state_json
          = some ((set_last_id s forge n).1.mem.state_cache) := by
  intro s forge n
  refine ⟨rfl, by simp [set_last_id, updateForge], rfl, rfl, ?_, rfl, rfl⟩
  rcases hcsv : s.disk.csv forge with _ | rows
  · rcases hbuf : s.mem.repos_state forge with _ | ⟨p, t⟩
    · exact ⟨[], by simp [set_last_id, store_csv, storeCsvFile, hcsv, hbuf]⟩
    · refine ⟨[CsvRow.header], ?_⟩
      simp [set_last_id, store_csv, storeCsvFile, hcsv, hbuf, List.map_map]
  · refine ⟨rows, ?_⟩
    simp [set_last_id, store_csv, storeCsvFile, hcsv, List.map_map]

/-- The errors of the api.rs client as its retry loop distinguishes them
(src/github/api.rs): an error either downcasts to RetryRequest — carrying
the status it was raised with, produced by handle_errors for 500/502/503/
504 and by the abuse-message branches as 429 — or it is anything else,
which covers transport-level failures from send() as well as the fatal
message errors built in the response handlers. -/
inductive ApiError where
  | retryRequest (status : Nat)
  | other (msg : String)
  deriving DecidableEq

/-- retry (src/github/api.rs, lines 89-120), written with fuel (the loop
has no exit of its own for persistent retryable failures, so the fuel only
bounds how far the unbounded loop is unrolled): wait starts at 10 seconds;
a successful call returns at once; an error that does not downcast to
RetryRequest is returned to the caller immediately, with no sleep and no
further attempt; a RetryRequest error sleeps the current wait and retries,
doubling the wait after the sleep only while it is below 640 seconds.
There is no failure count, no accumulated-time ceiling and no other exit.
The result pairs the outcome — none when the loop is still running as the
fuel ends — with the total seconds slept so far. -/
def retryGo (respond : Nat → Except ApiError α) :
    Nat → Nat → Nat → Nat → Option (Except ApiError α) × Nat
  | 0, _, _, slept => (none, slept)
  | fuel + 1, attempt, wait, slept =>
      match respond attempt with
      | Except.ok v => (some (Except.ok v), slept)
      | Except.error (ApiError.other m) => (some (Except.error (ApiError.other m)), slept)
      | Except.error (ApiError.retryRequest _) =>
          retryGo respond fuel (attempt + 1) (if wait < 640 then wait * 2 else wait) (slept + wait)

/-- The retry loop entered as retry enters it, with wait at 10 seconds. -/
def retry (respond : Nat → Except ApiError α) (fuel : Nat) :
    Option (Except ApiError α) × Nat :=
  retryGo respond fuel 0 10 0

theorem retryGo_retryRequest_forever :
    ∀ (status fuel attempt wait slept : Nat),
      (retryGo (fun _ => (Except.error (ApiError.retryRequest status) : Except ApiError Unit))
          fuel attempt wait slept).1 = none := by
  intro status fuel
  induction fuel with
  | zero => intro attempt wait slept; rfl
  | succ f ih =>
      intro attempt wait slept
      simp only [retryGo]
      exact ih (attempt + 1) (if wait < 640 then wait * 2 else wait) (slept + wait)

/-- Claim C2: the claim says every API call retries transport-level
failures with a backoff starting at 1 time unit plus jitter and surfaces a
fatal error once accumulated backoff exceeds a 5-minute ceiling, never
looping forever.  The retry loop in the code does neither: an error that
is not a RetryRequest — which is what a transport-level failure is — is
returned on the very first attempt, with no retry and no sleep at all,
and a call whose every attempt fails with a RetryRequest is retried
forever — the first sleep is 10 seconds, not 1 unit, after five failures
the accumulated sleep of 310 seconds is already past the claimed
300-second ceiling, and the loop is still running and returns nothing for
any amount of fuel. -/
theorem c2_retry_never_surfaces_fatal :
    (∀ (fuel attempt wait slept : Nat),
        retryGo (fun _ => (Except.error (ApiError.other "connection reset") : Except ApiError Unit))
            (fuel + 1) attempt wait slept
          = (some (Except.error (ApiError.other "connection reset")), slept))
    ∧ (∀ (status fuel attempt wait slept : Nat),
        (retryGo (fun _ => (Except.error (ApiError.retryRequest status) : Except ApiError Unit))
            fuel attempt wait slept).1 = none)
    ∧ (retry (fun _ => (Except.error (ApiError.retryRequest 502) : Except ApiError Unit)) 5).2 = 310
    ∧ 300 < (retry (fun _ => (Except.error (ApiError.retryRequest 502) : Except ApiError Unit)) 5).2 := by
  refine ⟨fun fuel attempt wait slept => rfl, retryGo_retryRequest_forever, by decide, by decide⟩

/-- handle_errors (src/github/api.rs, lines 63-74): a response whose
status is 500, 502, 503 or 504 becomes a RetryRequest error, which the
retry loop will sleep on and retry; every other status is passed through
to the caller's own response handling. -/
def handle_errors (status : Nat) : Except ApiError Nat :=
  if status = 500 ∨ status = 502 ∨ status = 503 ∨ status = 504 then
    Except.error (ApiError.retryRequest status)
  else Except.ok status

/-- Claim C5: the claim says a response with any non-success status other
than the rate-limited ones (429/422) fails the call immediately, with no
retry attempt.  In the code handle_errors turns 502 — a non-success
status that is neither 429 nor 422 — into a RetryRequest error, and the
retry loop retries such errors indefinitely: it sleeps 10 seconds after
the first failure, and when every attempt keeps returning 502 the call
never returns at all, for any amount of fuel. -/
theorem c5_server_errors_retried_not_fatal :
    handle_errors 502 = Except.error (ApiError.retryRequest 502)
    ∧ ¬(200 ≤ 502 ∧ 502 ≤ 299) ∧ 502 ≠ 429 ∧ 502 ≠ 422
    ∧ (∀ (fuel attempt wait slept : Nat),
        (retryGo (fun _ => (Except.error (ApiError.retryRequest 502) : Except ApiError Unit))
            fuel attempt wait slept).1 = none)
    ∧ (retry (fun _ => (Except.error (ApiError.retryRequest 502) : Except ApiError Unit)) 1).2 = 10 := by
  refine ⟨rfl, by decide, by decide, by decide, ?_, by decide⟩
  intro fuel attempt wait slept
  exact retryGo_retryRequest_forever 502 fuel attempt wait slept

/-- A GraphQL error object (struct GitHubError, src/github/api.rs). -/
structure GitHubError where
  message : String
  type_ : Option String
  deriving DecidableEq

/-- The shape of a GraphQL response (struct GraphResponse,
src/github/api.rs). -/
structure GraphResponse (α : Type) where
  data : Option α
  errors : Option (List GitHubError)
  message : Option String
  deriving DecidableEq

/-- Whether a pattern occurs at the start of a character list. -/
def charsStart : List Char → List Char → Bool
  | [], _ => true
  | _ :: _, [] => false
  | p :: ps, c :: cs => p == c && charsStart ps cs

/-- Whether a pattern occurs anywhere in a character list. -/
def charsContain (pat : List Char) : List Char → Bool
  | [] => pat.isEmpty
  | c :: rest => charsStart pat (c :: rest) || charsContain pat rest

/-- message.contains("abuse") (src/github/api.rs, lines 169 and 195),
translated on the character lists of the strings. -/
def containsAbuse (message : String) : Bool :=
  charsContain "abuse".toList message.toList

/-- The response handling of graphql (src/github/api.rs, lines 149-179):
a response with data succeeds (its non-fatal error list is only logged);
otherwise a present error list becomes a fatal error from its last
message (the unwrap on an empty list, a panic in the source, is modelled
by a placeholder message); otherwise a bare message mentioning abuse — the
rate-limited case — becomes a RetryRequest with status 429
(TooManyRequests), any other bare message a fatal error; and a response
with none of the three is the fatal empty-response error. -/
def graphqlHandle (resp : GraphResponse α) : Except ApiError α :=
  match resp.data with
  | some d => Except.ok d
  | none =>
      match resp.errors with
      | some errs =>
          Except.error (ApiError.other (match errs.getLast? with
            | some e => e.message
            | none => "unwrap on empty error list"))
      | none =>
          match resp.message with
          | some message =>
              if containsAbuse message then Except.error (ApiError.retryRequest 429)
              else Except.error (ApiError.other message)
          | none => Except.error (ApiError.other "empty GraphQL response")

/-- build_request (src/github/api.rs, lines 122-136): every request, on
every attempt, is authenticated with the single configured token.  The
client holds no credential index and no other mutable credential state
anywhere in src/ (src/config.rs declares a token list, but no code
present consumes more than this one token). -/
def build_request_token (github_token : String) (_attempt : Nat) : String :=
  github_token

/-- Claim C3: the claim says a rate-limited response rotates to the next
credential modulo the configured count, sleeping a 60-second cooldown when
the rotation wraps.  The client in the code has no rotation at all: a
success-shaped body whose message mentions abuse is converted into a
RetryRequest error, which the retry loop treats exactly like any other
retryable failure — sleeping the current backoff, 10 seconds the first
time, never a 60-second cooldown — and every attempt carries the same
single configured token, so consecutive rate limits leave the credential
unchanged instead of visiting index 1 and returning to index 0. -/
theorem c3_rate_limit_retries_same_token :
    graphqlHandle (⟨none, none, some "abuse detection triggered"⟩ : GraphResponse Unit)
        = Except.error (ApiError.retryRequest 429)
    ∧ (∀ (status fuel attempt wait slept : Nat),
        (retryGo (fun _ => (Except.error (ApiError.retryRequest status) : Except ApiError Unit))
            fuel attempt wait slept).1 = none)
    ∧ (retry (fun _ => (Except.error (ApiError.retryRequest 429) : Except ApiError Unit)) 1).2 = 10
    ∧ (∀ (github_token : String) (a b : Nat),
        build_request_token github_token a = build_request_token github_token b) := by
  refine ⟨rfl, retryGo_retryRequest_forever, by decide, fun _ _ _ => rfl⟩

/-- add_repo_thread (src/github/mod.rs, lines 97-128), the enrichment sink
thread: for each repository received over the channel, probe the two
marker files with file_exists and store the resulting record.  Both probes
use the ? operator, so the first failure returns from the thread at once.
probe gives file_exists' outcome for a (repository name, path) pair; the
function returns the records actually stored, in order, together with the
error the thread stopped with, if any. -/
def add_repo_thread (probe : String → String → Except ApiError Bool) :
    List (ThreadInput GraphRepository) → List Repo → List Repo × Option ApiError
  | [], stored => (stored, none)
  | ThreadInput.finished :: _, stored => (stored, none)
  | ThreadInput.data repo :: rest, stored =>
      match probe repo.name_with_owner "Cargo.toml" with
      | Except.error e => (stored, some e)
      | Except.ok has_cargo_toml =>
          match probe repo.name_with_owner "Cargo.lock" with
          | Except.error e => (stored, some e)
          | Except.ok has_cargo_lock =>
              add_repo_thread probe rest
                (stored ++ [{ id := repo.id, name := repo.name_with_owner
                              has_cargo_toml := has_cargo_toml
                              has_cargo_lock := has_cargo_lock }])

/-- Claim C4: the claim says a failed marker-file fetch is logged and the
repository is still stored with both flags false, never blocking or
dropping its batch siblings.  In the code the ? on file_exists propagates
the failure out of add_repo_thread: with two repositories queued and the
fetch failing for the first, nothing is stored at all — no flags-false
record for the failing repository — the thread stops with the error, and
the sibling is dropped as well, although the same two repositories with
working fetches would both have been stored. -/
theorem c4_fetch_failure_drops_batch :
    add_repo_thread
        (fun name _ =>
          if name == "octocat/failing"
          then (Except.error (ApiError.other "connection reset") : Except ApiError Bool)
          else Except.ok true)
        [ThreadInput.data ⟨"MDE1", "octocat/failing", none, ⟨[some ⟨"Rust"⟩]⟩⟩,
         ThreadInput.data ⟨"MDE2", "octocat/sibling", none, ⟨[some ⟨"Rust"⟩]⟩⟩,
         ThreadInput.finished] []
      = ([], some (ApiError.other "connection reset"))
    ∧ add_repo_thread (fun _ _ => Except.ok true)
        [ThreadInput.data ⟨"MDE1", "octocat/failing", none, ⟨[some ⟨"Rust"⟩]⟩⟩,
         ThreadInput.data ⟨"MDE2", "octocat/sibling", none, ⟨[some ⟨"Rust"⟩]⟩⟩,
         ThreadInput.finished] []
      = ([⟨"MDE1", "octocat/failing", true, true⟩, ⟨"MDE2", "octocat/sibling", true, true⟩],
         none) := by
  constructor
  · decide
  · decide

end RustRepos
